import Mathlib

/-!
Verification of the pylibcudf `Table` core
(`python/cudf/cudf/_lib/pylibcudf/table.pyx` plus the string-utilities
header it ships with).

The Cython `Table` class is embedded directly from the source.  `Column`
is an external dependency of the snippet (its module is referenced but
not part of the core), and the C++ functions `cudf::from_arrow`,
`cudf::to_arrow`, `cudf::strings::detail::create_chars_child_column`,
`cudf::strings::detail::get_offset64_threshold` and
`cudf::strings::detail::get_offset_value` appear only as declarations
with documentation; those parts are modelled from the specification and
each such definition is marked `Modelled from the spec:`.

Machine integers are embedded as `Int`/`Nat`; device buffers are value
lists; Python object identity (needed for the aliasing behaviour of
`Table._columns`) is embedded separately with an explicit store of list
objects.
-/

namespace PylibcudfTable

/-- Logical element types of a column (the cudf type ids that matter to
this core: the two offsets widths, a couple of non-integer types to
exercise the error path, and the chars-buffer byte type). -/
inductive DType where
  | int32
  | int64
  | float32
  | float64
  | uint8
  | stringT
  deriving DecidableEq, Repr, Inhabited

/-- The observable payload of a column: logical type, row count, element
values and optional validity bitmap.  This is what a non-owning
`column_view` exposes. -/
structure ColumnData where
  dtype : DType
  size : Nat
  values : List Int
  validity : Option (List Bool)
  deriving DecidableEq, Repr

instance : Inhabited ColumnData := ⟨⟨DType.int32, 0, [], none⟩⟩

/-- Modelled from the spec: a `Column` (external dependency of the
snippet) either exclusively owns its device buffer or is a non-owning
view that holds a strong reference to an owner column keeping the
buffer alive. -/
inductive Column where
  | owned (d : ColumnData)
  | shared (d : ColumnData) (owner : Column)
  deriving DecidableEq, Repr

instance : Inhabited Column := ⟨Column.owned default⟩

/-- The payload reachable through a column handle, owning or not. -/
def Column.data : Column → ColumnData
  | Column.owned d => d
  | Column.shared d _ => d

/-- Modelled from the spec: `Column.view()` produces a non-owning view
carrying the column's type, row count, values and validity. -/
def Column.view (c : Column) : ColumnData := c.data

/-- Modelled from the spec: `Column.from_column_view(cv, owner)` builds
a non-owning column over `cv` holding an ownership reference to
`owner`. -/
def Column.from_column_view (cv : ColumnData) (owner : Column) : Column :=
  Column.shared cv owner

/-- Modelled from the spec: `Column.from_libcudf` takes ownership of a
native result column. -/
def Column.from_libcudf (d : ColumnData) : Column :=
  Column.owned d

/-- A Python object handed to `Table.__init__`: either a pylibcudf
`Column` or some other object. -/
inductive PyObject where
  | column (c : Column)
  | other (oid : Nat)
  deriving DecidableEq, Repr

/-- The `isinstance(c, Column)` test from `Table.__init__`. -/
def PyObject.isColumn : PyObject → Bool
  | PyObject.column _ => true
  | PyObject.other _ => false

/-- The `<Column> col` cast used once the isinstance check has passed. -/
def PyObject.asColumn : PyObject → Column
  | PyObject.column c => c
  | PyObject.other _ => default

/-- Error taxonomy of the spec: `TypeMismatch` is the `ValueError` of
`Table.__init__`, `StructureMismatch` the interchange metadata error,
`InvalidArgument` the `std::invalid_argument` of `get_offset_value`. -/
inductive Err where
  | typeMismatch
  | structureMismatch
  | invalidArgument
  deriving DecidableEq, Repr

/-- A `Table` owns an ordered list of columns (`self._columns`). -/
structure Table where
  _columns : List Column
  deriving DecidableEq, Repr

/-- Source `Table.__init__` (lines 30-33): raise `ValueError` unless
every element of the input list is a `Column`; otherwise store the
columns in the given order.  No row-count validation is performed. -/
def Table.init (columns : List PyObject) : Except Err Table :=
  if columns.all PyObject.isColumn then
    Except.ok ⟨columns.map PyObject.asColumn⟩
  else
    Except.error Err.typeMismatch

/-- Source `Table.columns` (lines 87-89): accessor for `self._columns`. -/
def Table.columns (t : Table) : List Column := t._columns

/-- Source `Table.view` (lines 35-50): walk `self._columns` in order and
push back `(<Column> col).view()` for each, building a fresh
`table_view` on every call. -/
def Table.view (t : Table) : List ColumnData :=
  t._columns.map Column.view

/-- Source `Table.from_libcudf` (lines 52-68): take ownership of each
column of a native result, in order. -/
def Table.from_libcudf (cols : List ColumnData) : Table :=
  ⟨cols.map Column.from_libcudf⟩

/-- Source `Table.from_table_view` (lines 70-85): for each
`i < tv.num_columns()`, build `Column.from_column_view(tv.column(i),
owner.columns()[i])`. -/
def Table.from_table_view (tv : List ColumnData) (owner : Table) : Table :=
  ⟨(List.range tv.length).map fun i =>
    Column.from_column_view (tv.getD i default) (owner.columns.getD i default)⟩

/-- Per-column interchange metadata (`ColumnMetadata` of the interop
module, referenced by the snippet): a name plus, recursively, metadata
for nested children. -/
inductive ColumnMetadata where
  | mk (name : String) (children : List ColumnMetadata)

/-- The name carried by a metadata descriptor. -/
def ColumnMetadata.name : ColumnMetadata → String
  | ColumnMetadata.mk n _ => n

/-- A column of the external interchange (arrow) representation. -/
structure ArrowColumn where
  name : String
  dtype : DType
  size : Nat
  values : List Int
  validity : Option (List Bool)
  deriving DecidableEq, Repr

/-- An external interchange (arrow) table. -/
structure ArrowTable where
  columns : List ArrowColumn
  deriving DecidableEq, Repr

/-- Modelled from the spec: `cudf::to_arrow` requires the metadata
descriptor count to equal the column count of the input view, failing
with a StructureMismatch error otherwise, and exports each column's
type, row count, values and validity under the descriptor's name. -/
def cpp_to_arrow (tv : List ColumnData) (metadata : List ColumnMetadata) :
    Except Err ArrowTable :=
  if metadata.length = tv.length then
    Except.ok ⟨List.zipWith
      (fun cv m => ⟨m.name, cv.dtype, cv.size, cv.values, cv.validity⟩)
      tv metadata⟩
  else
    Except.error Err.structureMismatch

/-- Modelled from the spec: `cudf::from_arrow` imports each interchange
column's type, row count, values and validity into a native column, in
order. -/
def cpp_from_arrow (a : ArrowTable) : List ColumnData :=
  a.columns.map fun ac => ⟨ac.dtype, ac.size, ac.values, ac.validity⟩

/-- Source `Table.to_arrow` (lines 111-128): collect the metadata and
call `cudf::to_arrow` on `self.view()`. -/
def Table.to_arrow (t : Table) (metadata : List ColumnMetadata) :
    Except Err ArrowTable :=
  cpp_to_arrow t.view metadata

/-- Variant of `Table.to_arrow` with the receiver state threaded: the
method body never assigns to `self._columns`, so the table state out is
the table state in. -/
def Table.to_arrow_st (t : Table) (metadata : List ColumnMetadata) :
    Table × Except Err ArrowTable :=
  (t, t.to_arrow metadata)

/-- Source `Table.from_arrow` (lines 91-109): run `cudf::from_arrow` and
wrap the native result with `Table.from_libcudf`. -/
def Table.from_arrow (a : ArrowTable) : Table :=
  Table.from_libcudf (cpp_from_arrow a)

/-! ### String utilities (header declarations in the snippet) -/

/-- The value `std::numeric_limits<int32_t>::max()`. -/
def int32Max : Int := 2 ^ 31 - 1

/-- Modelled from the spec:
`cudf::strings::detail::get_offset64_threshold` (implementation not in
the snippet, declaration only).  Returns the byte-size threshold above
which a strings column uses int64 offsets: the default is the maximum
of a signed 32-bit integer, and the environment variable
`LIBCUDF_LARGE_STRINGS_THRESHOLD`, read as an integer, overrides it
with any smaller value.  The environment is embedded as an
`Option Int` (`none` when the variable is absent or invalid). -/
def get_offset64_threshold (env : Option Int) : Int :=
  match env with
  | none => int32Max
  | some n => if n < int32Max then n else int32Max

/-- Modelled from the spec:
`cudf::strings::detail::get_offset_value` (implementation not in the
snippet, declaration only).  Requires the offsets column to be of type
INT32 or INT64, else fails with an InvalidArgument error; otherwise
reads the raw element at `index`, widened to 64-bit, and returns it
without additional clamping. -/
def get_offset_value (offsets : ColumnData) (index : Nat) : Except Err Int :=
  if offsets.dtype = DType.int32 ∨ offsets.dtype = DType.int64 then
    Except.ok (offsets.values.getD index 0)
  else
    Except.error Err.invalidArgument

/-- Modelled from the spec:
`cudf::strings::detail::create_chars_child_column` (implementation not
in the snippet, declaration only).  Allocates the chars child column of
a strings column: a byte buffer column of exactly `bytes` bytes, with
no validity mask, to be filled in by the caller.  The buffer content is
uninitialized; it is embedded as zero bytes since only the size, type
and validity are specified. -/
def create_chars_child_column (bytes : Nat) : ColumnData :=
  ⟨DType.uint8, bytes, List.replicate bytes 0, none⟩

/-! ### Python reference semantics of `self._columns`

`Table.__init__` executes `self._columns = columns`, storing the list
object itself, and `Table.columns` returns that stored reference.  To
state aliasing claims, list objects are embedded through an explicit
store mapping list identities to their current contents: a `TableRef`
holds the identity of its column list, and reads go through the
store. -/

/-- A store of Python list objects: list identity to current contents. -/
def Store := Nat → List PyObject

/-- A table holding a reference (the Python object identity) to its
column list, exactly as `self._columns = columns` stores the incoming
list without copying. -/
structure TableRef where
  _columns : Nat
  deriving DecidableEq, Repr

/-- Source `Table.__init__` under reference semantics: check
`all(isinstance(c, Column) for c in columns)` against the current
contents of the list object `r`, then store the reference `r` itself. -/
def Table.initRef (σ : Store) (r : Nat) : Except Err TableRef :=
  if (σ r).all PyObject.isColumn then
    Except.ok ⟨r⟩
  else
    Except.error Err.typeMismatch

/-- Source `Table.columns` under reference semantics: return the stored list
reference itself, without copying. -/
def TableRef.columns (t : TableRef) : Nat := t._columns

/-- Source `Table.view` under reference semantics: read the current contents
of the stored list object and build one view per element. -/
def TableRef.view (σ : Store) (t : TableRef) : List ColumnData :=
  (σ t._columns).map fun o => (PyObject.asColumn o).view

/-! ### Concrete columns for witnesses -/

/-- A five-row INT32 column. -/
def exCol5 : Column :=
  Column.owned ⟨DType.int32, 5, [1, 2, 3, 4, 5], none⟩

/-- A second five-row column, FLOAT64. -/
def exCol5b : Column :=
  Column.owned ⟨DType.float64, 5, [10, 20, 30, 40, 50], none⟩

/-- A third five-row column, INT64. -/
def exCol5c : Column :=
  Column.owned ⟨DType.int64, 5, [7, 7, 7, 7, 7], none⟩

/-- A three-row column, with a row count different from `exCol5`. -/
def exCol3 : Column :=
  Column.owned ⟨DType.int32, 3, [9, 8, 7], some [true, false, true]⟩

/-- The INT64 offsets column `[0, 3, 3, 10]` of the spec scenario. -/
def exOffsets64 : ColumnData :=
  ⟨DType.int64, 4, [0, 3, 3, 10], none⟩

/-- A three-column, five-row table. -/
def exTable3 : Table := ⟨[exCol5, exCol5b, exCol5c]⟩

/-- A two-entry metadata list. -/
def exMeta2 : List ColumnMetadata :=
  [ColumnMetadata.mk "a" [], ColumnMetadata.mk "b" []]

/-- A three-entry metadata list. -/
def exMeta3 : List ColumnMetadata :=
  [ColumnMetadata.mk "a" [], ColumnMetadata.mk "b" [], ColumnMetadata.mk "c" []]

/-- A store whose list object `0` holds two columns of different row
counts and whose other list objects are empty. -/
def exStore : Store := fun r =>
  if r = 0 then [PyObject.column exCol5, PyObject.column exCol3] else []

/-- A mutated version of `exStore`: list object `0` has been extended
with a third column. -/
def exStoreMut : Store := fun r =>
  if r = 0 then
    [PyObject.column exCol5, PyObject.column exCol3, PyObject.column exCol5c]
  else []

/-! ### Theorems -/

/-- C4: for every Table, `view()` has exactly as many column-views as
`columns()` has columns, and the row count of the i-th view equals the
row count of the i-th column; the view is a function of the current
column sequence, rebuilt on each call. -/
theorem view_matches_columns (t : Table) :
    t.view.length = t.columns.length ∧
    ∀ i (h1 : i < t.view.length) (h2 : i < t.columns.length),
      (t.view.get ⟨i, h1⟩).size = ((t.columns.get ⟨i, h2⟩).data).size := by
  refine ⟨by simp [Table.view, Table.columns], ?_⟩
  intro i h1 h2
  simp [Table.view, Table.columns, Column.view]

/-- Witness for C4: the three-column example table, at index 1. -/
theorem view_matches_columns_witness :
    (exTable3.view.get ⟨1, by decide⟩).size =
      ((exTable3.columns.get ⟨1, by decide⟩).data).size :=
  (view_matches_columns exTable3).2 1 (by decide) (by decide)

/-- C7: Table construction fails with the TypeMismatch error exactly
when some element of the sequence is not a Column; when every element
is a Column it succeeds and stores the columns in order; in particular
any two Columns, whatever their row counts, construct successfully, so
row-count equality is never validated. -/
theorem table_init_check (cols : List PyObject) :
    (Table.init cols = Except.error Err.typeMismatch ↔
      cols.all PyObject.isColumn = false) ∧
    (cols.all PyObject.isColumn = true →
      Table.init cols = Except.ok ⟨cols.map PyObject.asColumn⟩) ∧
    (∀ c1 c2 : Column,
      Table.init [PyObject.column c1, PyObject.column c2] =
        Except.ok ⟨[c1, c2]⟩) := by
  refine ⟨?_, ?_, ?_⟩
  · unfold Table.init
    split <;> simp_all
  · intro h
    simp [Table.init, h]
  · intro c1 c2
    simp [Table.init, PyObject.isColumn, PyObject.asColumn]

/-- Witness for C7: two columns with different row counts (5 and 3)
construct successfully in order. -/
theorem table_init_check_witness :
    ([PyObject.column exCol5, PyObject.column exCol3].all PyObject.isColumn
        = true) ∧
    Table.init [PyObject.column exCol5, PyObject.column exCol3] =
      Except.ok ⟨[PyObject.column exCol5,
                  PyObject.column exCol3].map PyObject.asColumn⟩ :=
  ⟨by decide, (table_init_check _).2.1 (by decide)⟩

/-- C2: on an offsets column of 32-bit or 64-bit integer type,
`get_offset_value` returns the raw element at the index, with no
clamping. -/
theorem get_offset_value_raw (offsets : ColumnData) (i : Nat)
    (ht : offsets.dtype = DType.int32 ∨ offsets.dtype = DType.int64)
    (hi : i < offsets.values.length) :
    get_offset_value offsets i = Except.ok (offsets.values.get ⟨i, hi⟩) := by
  simp [get_offset_value, ht, List.getD_eq_getElem?_getD, List.getElem?_eq_getElem hi]

/-- Witness for C2: the INT64 offsets column `[0, 3, 3, 10]` at index 3
yields 10. -/
theorem get_offset_value_raw_witness :
    get_offset_value exOffsets64 3 =
      Except.ok (exOffsets64.values.get ⟨3, by decide⟩) ∧
    exOffsets64.values.get ⟨3, by decide⟩ = 10 :=
  ⟨get_offset_value_raw exOffsets64 3 (Or.inr rfl) (by decide), by decide⟩

/-- C5: the call `get_offset_value` fails with the InvalidArgument error exactly
when the offsets column is neither INT32 nor INT64; for an integer
offsets column it never raises that error. -/
theorem get_offset_value_invalid_iff (offsets : ColumnData) (i : Nat) :
    get_offset_value offsets i = Except.error Err.invalidArgument ↔
      ¬ (offsets.dtype = DType.int32 ∨ offsets.dtype = DType.int64) := by
  unfold get_offset_value
  split <;> simp_all

/-- C3: for every byte count, `create_chars_child_column` yields a byte
buffer column of exactly that size with no validity mask; in
particular for 0 and for a count beyond `2^31`. -/
theorem create_chars_child_column_size (bytes : Nat) :
    (create_chars_child_column bytes).size = bytes ∧
    (create_chars_child_column bytes).dtype = DType.uint8 ∧
    (create_chars_child_column bytes).validity = none ∧
    (create_chars_child_column 0).size = 0 ∧
    (create_chars_child_column (2 ^ 31 + 1)).size = 2 ^ 31 + 1 :=
  ⟨rfl, rfl, rfl, rfl, rfl⟩

/-- C6: `get_offset64_threshold` returns `2^31 - 1` with no override
set, and returns N when the override environment value is a smaller
integer N. -/
theorem get_offset64_threshold_spec :
    get_offset64_threshold none = 2 ^ 31 - 1 ∧
    ∀ n : Int, n < 2 ^ 31 - 1 → get_offset64_threshold (some n) = n := by
  refine ⟨rfl, ?_⟩
  intro n h
  have h' : n < int32Max := by simpa [int32Max] using h
  simp [get_offset64_threshold, h']

/-- Witness for C6: the default, and the override 42. -/
theorem get_offset64_threshold_spec_witness :
    get_offset64_threshold none = 2 ^ 31 - 1 ∧
    (42 : Int) < 2 ^ 31 - 1 ∧
    get_offset64_threshold (some 42) = 42 :=
  ⟨get_offset64_threshold_spec.1, by decide,
    get_offset64_threshold_spec.2 42 (by decide)⟩

/-- C8: calling `to_arrow` with a metadata sequence whose entry count differs
from the column count fails with the StructureMismatch error, and the
table state out of the call equals the table state in. -/
theorem to_arrow_metadata_mismatch (t : Table) (metadata : List ColumnMetadata)
    (h : metadata.length ≠ t._columns.length) :
    Table.to_arrow_st t metadata = (t, Except.error Err.structureMismatch) := by
  have hv : t.view.length = t._columns.length := by simp [Table.view]
  simp [Table.to_arrow_st, Table.to_arrow, cpp_to_arrow, hv, h]

/-- Witness for C8: three columns of five rows each against a
two-entry metadata sequence. -/
theorem to_arrow_metadata_mismatch_witness :
    exMeta2.length ≠ exTable3._columns.length ∧
    Table.to_arrow_st exTable3 exMeta2 =
      (exTable3, Except.error Err.structureMismatch) :=
  ⟨by decide, to_arrow_metadata_mismatch exTable3 exMeta2 (by decide)⟩

/-- C9: running `from_table_view` over a view with n entries and an owner with
at least n columns yields a table of exactly n columns, the i-th being
a non-owning column over the i-th view entry holding an ownership
reference to the i-th column of the owner. -/
theorem from_table_view_spec (tv : List ColumnData) (owner : Table)
    (h : tv.length ≤ owner._columns.length) :
    (Table.from_table_view tv owner)._columns.length = tv.length ∧
    ∀ i (h1 : i < tv.length)
      (h3 : i < (Table.from_table_view tv owner)._columns.length),
      (Table.from_table_view tv owner)._columns.get ⟨i, h3⟩ =
        Column.shared (tv.get ⟨i, h1⟩)
          (owner._columns.get ⟨i, lt_of_lt_of_le h1 h⟩) := by
  refine ⟨by simp [Table.from_table_view], ?_⟩
  intro i h1 h3
  have h2 : i < owner._columns.length := lt_of_lt_of_le h1 h
  simp [Table.from_table_view, Column.from_column_view, Table.columns,
    List.getD_eq_getElem?_getD, List.getElem?_eq_getElem h1,
    List.getElem?_eq_getElem h2]

/-- Witness for C9: a two-entry view against the three-column example
table, at index 1. -/
theorem from_table_view_spec_witness :
    (Table.from_table_view [exOffsets64, exCol3.data] exTable3)._columns.length
        = 2 ∧
    (Table.from_table_view [exOffsets64, exCol3.data] exTable3)._columns.get
        ⟨1, by decide⟩ =
      Column.shared ([exOffsets64, exCol3.data].get ⟨1, by decide⟩)
        (exTable3._columns.get ⟨1, by decide⟩) :=
  ⟨(from_table_view_spec [exOffsets64, exCol3.data] exTable3 (by decide)).1,
   (from_table_view_spec [exOffsets64, exCol3.data] exTable3 (by decide)).2
      1 (by decide) (by decide)⟩

/-- C10: a successfully constructed table stores the very list object
it was given — `columns()` returns that identical list reference, and
later `view()`/`columns()` calls read the list's current contents, so
mutations of the list are observed. -/
theorem columns_alias (σ : Store) (r : Nat) (t : TableRef)
    (h : Table.initRef σ r = Except.ok t) :
    t.columns = r ∧
    (∀ σ' : Store, σ' t.columns = σ' r) ∧
    (∀ σ' : Store,
      TableRef.view σ' t = (σ' r).map fun o => (PyObject.asColumn o).view) := by
  have hr : t = ⟨r⟩ := by
    unfold Table.initRef at h
    split at h
    · exact (Except.ok.inj h).symm
    · cases h
  subst hr
  exact ⟨rfl, fun _ => rfl, fun _ => rfl⟩

/-- Witness for C10: list object 0 of the example store; after the
store mutation that appends a third column, `view` reads the mutated
contents. -/
theorem columns_alias_witness :
    Table.initRef exStore 0 = Except.ok ⟨0⟩ ∧
    (⟨0⟩ : TableRef).columns = 0 ∧
    TableRef.view exStoreMut ⟨0⟩ =
      (exStoreMut 0).map (fun o => (PyObject.asColumn o).view) :=
  ⟨rfl, (columns_alias exStore 0 ⟨0⟩ rfl).1,
    (columns_alias exStore 0 ⟨0⟩ rfl).2.2 exStoreMut⟩

/-- C1: for a table and a metadata sequence matching its column count,
`from_arrow (to_arrow t m)` succeeds and yields a table with the same
column count and, per position, the same logical type, row count and
element values. -/
theorem to_arrow_from_arrow_roundtrip (t : Table)
    (metadata : List ColumnMetadata)
    (h : metadata.length = t._columns.length) :
    ∃ a, Table.to_arrow t metadata = Except.ok a ∧
      (Table.from_arrow a)._columns.length = t._columns.length ∧
      ∀ i (h1 : i < (Table.from_arrow a)._columns.length)
        (h2 : i < t._columns.length),
        ((Table.from_arrow a)._columns.get ⟨i, h1⟩).data.dtype =
          ((t._columns.get ⟨i, h2⟩).data).dtype ∧
        ((Table.from_arrow a)._columns.get ⟨i, h1⟩).data.size =
          ((t._columns.get ⟨i, h2⟩).data).size ∧
        ((Table.from_arrow a)._columns.get ⟨i, h1⟩).data.values =
          ((t._columns.get ⟨i, h2⟩).data).values := by
  have hv : metadata.length = t.view.length := by simp [Table.view, h]
  refine ⟨⟨List.zipWith
      (fun cv m => ⟨m.name, cv.dtype, cv.size, cv.values, cv.validity⟩)
      t.view metadata⟩, ?_, ?_, ?_⟩
  · simp [Table.to_arrow, cpp_to_arrow, hv]
  · simp [Table.from_arrow, Table.from_libcudf, cpp_from_arrow,
      Table.view, hv.symm, h]
  · intro i h1 h2
    simp [Table.from_arrow, Table.from_libcudf, cpp_from_arrow,
      Column.from_libcudf, Column.data, Column.view, Table.view]

/-- Witness for C1: the three-column example table with the
three-entry metadata sequence. -/
theorem to_arrow_from_arrow_roundtrip_witness :
    exMeta3.length = exTable3._columns.length ∧
    (∃ a, Table.to_arrow exTable3 exMeta3 = Except.ok a ∧
      (Table.from_arrow a)._columns.length = exTable3._columns.length ∧
      ∀ i (h1 : i < (Table.from_arrow a)._columns.length)
        (h2 : i < exTable3._columns.length),
        ((Table.from_arrow a)._columns.get ⟨i, h1⟩).data.dtype =
          ((exTable3._columns.get ⟨i, h2⟩).data).dtype ∧
        ((Table.from_arrow a)._columns.get ⟨i, h1⟩).data.size =
          ((exTable3._columns.get ⟨i, h2⟩).data).size ∧
        ((Table.from_arrow a)._columns.get ⟨i, h1⟩).data.values =
          ((exTable3._columns.get ⟨i, h2⟩).data).values) :=
  ⟨rfl, to_arrow_from_arrow_roundtrip exTable3 exMeta3 rfl⟩

end PylibcudfTable
